import Mathlib

/-!
Verification of the per-track acquisition pipeline of the Yandex-Music-Downloader
repository (Rust sources: `src/main.rs`, `src/utils.rs`, `src/structs.rs`,
`src/api/client.rs`, `src/api/structs.rs`).

Every definition below is a shallow embedding of the corresponding Rust item and
keeps the source's name where Lean allows it.  Machine integers (`u16`, bytes)
are modelled as `Nat`; fallible Rust functions return `Except`/`Option`; the
filesystem, network and subprocess effects of the pipeline are modelled as an
explicit event trace produced by a pure function of an environment record that
fixes the outcome of each external interaction.
-/

namespace YandexDL

/-! ## Decimal digit strings (Rust `u16::to_string` / `format!("{:0width$}")`) -/

theorem string_mk_length (l : List Char) : (String.mk l).length = l.length := rfl

/-- Length in characters of the decimal representation (`n.to_string().len()`). -/
def decimal_digit_count (n : Nat) : Nat :=
  (Nat.repr n).length

theorem toDigitsCore_length (fuel n : Nat) (ds : List Char) (h : n < fuel) :
    (Nat.toDigitsCore 10 fuel n ds).length = Nat.log 10 n + 1 + ds.length := by
  induction fuel generalizing n ds with
  | zero => omega
  | succ f ih =>
    by_cases h0 : n / 10 = 0
    · have hn : n < 10 := by omega
      have : Nat.log 10 n = 0 := Nat.log_of_lt hn
      simp only [Nat.toDigitsCore, h0, this, if_true, List.length_cons]
      omega
    · have h10 : 10 ≤ n := by
        by_contra hc
        exact h0 (Nat.div_eq_of_lt (by omega))
      have hlt : n / 10 < n := Nat.div_lt_self (by omega) (by omega)
      have hf : n / 10 < f := by omega
      have hrec : Nat.toDigitsCore 10 (f + 1) n ds
          = Nat.toDigitsCore 10 f (n / 10) (Nat.digitChar (n % 10) :: ds) := by
        simp [Nat.toDigitsCore, h0]
      rw [hrec, ih (n / 10) _ hf]
      have hdiv : Nat.log 10 (n / 10) = Nat.log 10 n - 1 := Nat.log_div_base 10 n
      have hpos : 0 < Nat.log 10 n := Nat.log_pos (by omega) h10
      simp only [List.length_cons]
      omega

theorem toDigits_length (n : Nat) :
    (Nat.toDigits 10 n).length = Nat.log 10 n + 1 := by
  have := toDigitsCore_length (n + 1) n [] (Nat.lt_succ_self n)
  simpa [Nat.toDigits] using this

theorem decimal_digit_count_eq_log (n : Nat) :
    decimal_digit_count n = Nat.log 10 n + 1 := by
  have : (Nat.repr n).length = (Nat.toDigits 10 n).length := rfl
  rw [decimal_digit_count, this, toDigits_length]

theorem decimal_digit_count_mono {m n : Nat} (h : m ≤ n) :
    decimal_digit_count m ≤ decimal_digit_count n := by
  rw [decimal_digit_count_eq_log, decimal_digit_count_eq_log]
  exact Nat.add_le_add_right (Nat.log_mono_right h) 1

/-! ## `utils.rs` -/

/-- Embedding of `utils::format_track_number`: zero-pads the decimal rendering of
`track_num` to the width given by the digit count of `track_total`
(`format!("{:0width$}", track_num, width = track_total.to_string().len())`). -/
def format_track_number (track_num track_total : Nat) : String :=
  let padding := (Nat.repr track_total).length
  ⟨List.replicate (padding - (Nat.repr track_num).length) '0' ++ (Nat.repr track_num).data⟩

theorem format_track_number_length (track_num track_total : Nat) :
    (format_track_number track_num track_total).length
      = (decimal_digit_count track_total - decimal_digit_count track_num)
        + decimal_digit_count track_num := by
  have h : (format_track_number track_num track_total).length
      = (List.replicate ((Nat.repr track_total).length - (Nat.repr track_num).length) '0'
         ++ (Nat.repr track_num).data).length := rfl
  rw [h, List.length_append, List.length_replicate]
  rfl

/-- Embedding of `utils::append_to_path_buf`: string concatenation of the lossy
path rendering and the suffix. -/
def append_to_path_buf (path to_append : String) : String :=
  path ++ to_append

/-- `PathBuf::join` for the paths built by the pipeline. -/
def path_join (base name : String) : String :=
  base ++ "/" ++ name

/-! ## `api/structs.rs`: `LyricsInfo` -/

structure LyricsInfo where
  has_available_sync_lyrics : Bool
  has_available_text_lyrics : Bool
deriving DecidableEq, Repr

/-- Embedding of `LyricsInfo::check_availibility` (sic): sync lyrics win,
then text lyrics, else `None`. -/
def LyricsInfo.check_availibility (li : LyricsInfo) : Option Bool :=
  if li.has_available_sync_lyrics then some true
  else if li.has_available_text_lyrics then some false
  else none

/-! ## Claim C9 -/

/-- C9: the zero-padded track number produced by `format_track_number` has width
equal to the decimal digit count of the track total (for track numbers not
exceeding the total, the invariant the data model guarantees); track total 7
gives width 1, total 42 gives width 2, and track 3 of total 42 renders as
`"03"`. -/
theorem format_track_number_width (track_num track_total : Nat)
    (h : track_num ≤ track_total) :
    (format_track_number track_num track_total).length = decimal_digit_count track_total
    ∧ format_track_number 3 42 = "03"
    ∧ decimal_digit_count 7 = 1
    ∧ decimal_digit_count 42 = 2 := by
  refine ⟨?_, by decide, by decide, by decide⟩
  have hm := decimal_digit_count_mono h
  rw [format_track_number_length]
  omega

theorem format_track_number_width_witness :
    (format_track_number 3 42).length = decimal_digit_count 42
    ∧ format_track_number 3 42 = "03" :=
  ⟨(format_track_number_width 3 42 (by decide)).1,
   (format_track_number_width 3 42 (by decide)).2.1⟩

/-! ## Claim C10 -/

/-- C10: `check_availibility` resolves the lyrics tri-state with timed lyrics
taking precedence: `some true` whenever sync lyrics are available (even if text
lyrics are also available), `some false` when only text lyrics are available,
and `none` when neither is. -/
theorem check_availibility_tristate (li : LyricsInfo) :
    (li.has_available_sync_lyrics = true → li.check_availibility = some true)
    ∧ (li.has_available_sync_lyrics = false → li.has_available_text_lyrics = true →
        li.check_availibility = some false)
    ∧ (li.has_available_sync_lyrics = false → li.has_available_text_lyrics = false →
        li.check_availibility = none) := by
  cases li with
  | mk s t => cases s <;> cases t <;> simp [LyricsInfo.check_availibility]

theorem check_availibility_tristate_witness :
    (LyricsInfo.mk true true).check_availibility = some true
    ∧ (LyricsInfo.mk false true).check_availibility = some false
    ∧ (LyricsInfo.mk false false).check_availibility = none :=
  ⟨(check_availibility_tristate ⟨true, true⟩).1 rfl,
   (check_availibility_tristate ⟨false, true⟩).2.1 rfl rfl,
   (check_availibility_tristate ⟨false, false⟩).2.2 rfl rfl⟩

/-! ## `api/client.rs`: request signing

SHA-256, HMAC-SHA256 and standard base64 are spelled out executably over byte
lists (bytes are `Nat` below 256, 32-bit words are `Nat` reduced mod `2 ^ 32`),
matching the `sha2`/`hmac`/`base64` crates the client uses. -/

/-- Reduction to a 32-bit word. -/
def w32 (n : Nat) : Nat := n % 4294967296

/-- Right rotation of a 32-bit word. -/
def rotr (k n : Nat) : Nat := w32 ((n >>> k) ||| (n <<< (32 - k)))

/-- Big-endian byte rendering of `v` on `n` bytes. -/
def be_bytes (n v : Nat) : List Nat :=
  (List.range n).map (fun i => v >>> ((n - 1 - i) * 8) % 256)

/-- SHA-256 round constants (decimal renderings of the standard words). -/
def K256 : List Nat :=
  [1116352408, 1899447441, 3049323471, 3921009573, 961987163, 1508970993, 2453635748,
   2870763221, 3624381080, 310598401, 607225278, 1426881987, 1925078388, 2162078206,
   2614888103, 3248222580, 3835390401, 4022224774, 264347078, 604807628, 770255983,
   1249150122, 1555081692, 1996064986, 2554220882, 2821834349, 2952996808, 3210313671,
   3336571891, 3584528711, 113926993, 338241895, 666307205, 773529912, 1294757372,
   1396182291, 1695183700, 1986661051, 2177026350, 2456956037, 2730485921, 2820302411,
   3259730800, 3345764771, 3516065817, 3600352804, 4094571909, 275423344, 430227734,
   506948616, 659060556, 883997877, 958139571, 1322822218, 1537002063, 1747873779,
   1955562222, 2024104815, 2227730452, 2361852424, 2428436474, 2756734187, 3204031479,
   3329325298]

/-- SHA-256 initial hash state (decimal renderings of the standard words). -/
def H256 : List Nat :=
  [1779033703, 3144134277, 1013904242, 2773480762, 1359893119, 2600822924, 528734635,
   1541459225]

/-- SHA-256 message padding: `0x80`, zeros to 56 mod 64, 64-bit big-endian bit length. -/
def sha256_pad (ms : List Nat) : List Nat :=
  let L := ms.length
  let k := (119 - L % 64) % 64
  ms ++ [128] ++ List.replicate k 0 ++ be_bytes 8 (L * 8)

/-- Packs bytes into big-endian 32-bit words. -/
def bytes_to_words : List Nat → List Nat
  | a :: b :: c :: d :: rest => (((a * 256 + b) * 256 + c) * 256 + d) :: bytes_to_words rest
  | _ => []

/-- Extends a 16-word SHA-256 message schedule by `t` further words. -/
def extend_schedule : Nat → List Nat → List Nat
  | 0, ws => ws
  | t + 1, ws =>
    let n := ws.length
    let w15 := ws.getD (n - 15) 0
    let w2 := ws.getD (n - 2) 0
    let s0 := Nat.xor (rotr 7 w15) (Nat.xor (rotr 18 w15) (w15 >>> 3))
    let s1 := Nat.xor (rotr 17 w2) (Nat.xor (rotr 19 w2) (w2 >>> 10))
    extend_schedule t (ws ++ [w32 (ws.getD (n - 16) 0 + s0 + ws.getD (n - 7) 0 + s1)])

/-- One SHA-256 compression round on the state `[a,b,c,d,e,f,g,h]`. -/
def sha_compress_round (k w : Nat) (st : List Nat) : List Nat :=
  match st with
  | [a, b, c, d, e, f, g, hh] =>
    let S1 := Nat.xor (rotr 6 e) (Nat.xor (rotr 11 e) (rotr 25 e))
    let ch := Nat.xor (Nat.land e f) (Nat.land (Nat.xor e 4294967295) g)
    let temp1 := w32 (hh + S1 + ch + k + w)
    let S0 := Nat.xor (rotr 2 a) (Nat.xor (rotr 13 a) (rotr 22 a))
    let maj := Nat.xor (Nat.land a b) (Nat.xor (Nat.land a c) (Nat.land b c))
    let temp2 := w32 (S0 + maj)
    [w32 (temp1 + temp2), a, b, c, w32 (d + temp1), e, f, g]
  | _ => st

/-- Processes one 64-byte block against the running hash state. -/
def sha_block (h block : List Nat) : List Nat :=
  let ws := extend_schedule 48 (bytes_to_words block)
  let st := (List.zip K256 ws).foldl (fun st kw => sha_compress_round kw.1 kw.2 st) h
  List.zipWith (fun x y => w32 (x + y)) h st

/-- Folds `sha_block` over the 64-byte blocks of a padded message (`fuel`-bounded). -/
def sha_blocks : Nat → List Nat → List Nat → List Nat
  | 0, h, _ => h
  | fuel + 1, h, ms =>
    match ms with
    | [] => h
    | _ => sha_blocks fuel (sha_block h (ms.take 64)) (ms.drop 64)

/-- SHA-256 digest (32 bytes) of a byte list. -/
def sha256 (ms : List Nat) : List Nat :=
  let padded := sha256_pad ms
  let hh := sha_blocks padded.length H256 padded
  hh.foldr (fun w acc => be_bytes 4 w ++ acc) []

/-- HMAC-SHA256 with block size 64, as in the `hmac` crate. -/
def hmac_sha256 (key msg : List Nat) : List Nat :=
  let k0 := if key.length > 64 then sha256 key else key
  let kpad := k0 ++ List.replicate (64 - k0.length) 0
  let ipad := kpad.map (fun b => Nat.xor b 54)
  let opad := kpad.map (fun b => Nat.xor b 92)
  sha256 (opad ++ sha256 (ipad ++ msg))

/-- Standard base64 alphabet. -/
def BASE64_ALPHABET : List Char :=
  "ABCDEFGHIJKLMNOPQRSTUVWXYZabcdefghijklmnopqrstuvwxyz0123456789+/".data

/-- Standard base64 encoding with `=` padding (`general_purpose::STANDARD`). -/
def base64_encode : List Nat → List Char
  | [] => []
  | [a] =>
    [BASE64_ALPHABET.getD (a >>> 2) '?', BASE64_ALPHABET.getD ((a % 4) * 16) '?', '=', '=']
  | [a, b] =>
    [BASE64_ALPHABET.getD (a >>> 2) '?',
     BASE64_ALPHABET.getD ((a % 4) * 16 + (b >>> 4)) '?',
     BASE64_ALPHABET.getD ((b % 16) * 4) '?', '=']
  | a :: b :: c :: rest =>
    [BASE64_ALPHABET.getD (a >>> 2) '?',
     BASE64_ALPHABET.getD ((a % 4) * 16 + (b >>> 4)) '?',
     BASE64_ALPHABET.getD ((b % 16) * 4 + (c >>> 6)) '?',
     BASE64_ALPHABET.getD (c % 64) '?'] ++ base64_encode rest

/-- UTF-8 bytes of a string; the client only signs ASCII data (timestamps,
track ids, quality names, the fixed secret and literal suffix), for which the
code-point list below is exactly the byte encoding. -/
def str_bytes (s : String) : List Nat := s.data.map Char.toNat

/-- The fixed shared secret baked into `api/client.rs`. -/
def SECRET : String := "kzqU4XhfCaY6B6JTHODeq5"

/-- Embedding of `YandexMusicClient::create_signature`: HMAC-SHA256 over
`ts ∥ trackId ∥ quality ∥ "flacaache-aacmp3raw"` keyed with `SECRET`,
base64-encoded, with the final character removed by the byte slice
`[..len - 1]`. -/
def create_signature (ts track_id quality : String) : String :=
  let msg := ts ++ track_id ++ quality ++ "flacaache-aacmp3raw"
  let hmac_bytes := hmac_sha256 (str_bytes SECRET) (str_bytes msg)
  let base64_encoded : String := ⟨base64_encode hmac_bytes⟩
  ⟨base64_encoded.data.take (base64_encoded.length - 1)⟩

/-- The file-info signature exactly as the spec words it: base64 of
HMAC-SHA256 over `ts ∥ trackId ∥ quality ∥ "flacaache-aacmp3raw"` with the
fixed secret, with exactly its final character dropped. -/
def file_info_signature_spec (ts track_id quality : String) : String :=
  ⟨(base64_encode (hmac_sha256 (str_bytes SECRET)
      (str_bytes (ts ++ track_id ++ quality ++ "flacaache-aacmp3raw")))).dropLast⟩

/-! ## Claim C3 -/

/-- C3: for every timestamp, track id and quality string, `create_signature`
equals the base64 HMAC-SHA256 digest of `ts ∥ trackId ∥ quality ∥
"flacaache-aacmp3raw"` under the fixed secret with exactly its final character
removed; determinism is inherent since the embedding is a pure function of its
inputs. -/
theorem create_signature_eq_spec (ts track_id quality : String) :
    create_signature ts track_id quality = file_info_signature_spec ts track_id quality := by
  simp only [create_signature, file_info_signature_spec, List.dropLast_eq_take,
    string_mk_length]

/-! ## `main.rs`: track decryption (`Aes128Ctr = ctr::Ctr128BE<Aes128>`)

AES-128 is spelled out byte-wise (state in the block's byte order, i.e.
column-major), matching the `aes` crate; CTR mode uses the all-zero 16-byte IV
of `decrypt_track`, so counter block `i` is just `i` rendered big-endian on 16
bytes. -/

/-- The AES S-box. -/
def sbox : List Nat :=
  [0x63, 0x7c, 0x77, 0x7b, 0xf2, 0x6b, 0x6f, 0xc5, 0x30, 0x01, 0x67, 0x2b, 0xfe, 0xd7, 0xab, 0x76,
   0xca, 0x82, 0xc9, 0x7d, 0xfa, 0x59, 0x47, 0xf0, 0xad, 0xd4, 0xa2, 0xaf, 0x9c, 0xa4, 0x72, 0xc0,
   0xb7, 0xfd, 0x93, 0x26, 0x36, 0x3f, 0xf7, 0xcc, 0x34, 0xa5, 0xe5, 0xf1, 0x71, 0xd8, 0x31, 0x15,
   0x04, 0xc7, 0x23, 0xc3, 0x18, 0x96, 0x05, 0x9a, 0x07, 0x12, 0x80, 0xe2, 0xeb, 0x27, 0xb2, 0x75,
   0x09, 0x83, 0x2c, 0x1a, 0x1b, 0x6e, 0x5a, 0xa0, 0x52, 0x3b, 0xd6, 0xb3, 0x29, 0xe3, 0x2f, 0x84,
   0x53, 0xd1, 0x00, 0xed, 0x20, 0xfc, 0xb1, 0x5b, 0x6a, 0xcb, 0xbe, 0x39, 0x4a, 0x4c, 0x58, 0xcf,
   0xd0, 0xef, 0xaa, 0xfb, 0x43, 0x4d, 0x33, 0x85, 0x45, 0xf9, 0x02, 0x7f, 0x50, 0x3c, 0x9f, 0xa8,
   0x51, 0xa3, 0x40, 0x8f, 0x92, 0x9d, 0x38, 0xf5, 0xbc, 0xb6, 0xda, 0x21, 0x10, 0xff, 0xf3, 0xd2,
   0xcd, 0x0c, 0x13, 0xec, 0x5f, 0x97, 0x44, 0x17, 0xc4, 0xa7, 0x7e, 0x3d, 0x64, 0x5d, 0x19, 0x73,
   0x60, 0x81, 0x4f, 0xdc, 0x22, 0x2a, 0x90, 0x88, 0x46, 0xee, 0xb8, 0x14, 0xde, 0x5e, 0x0b, 0xdb,
   0xe0, 0x32, 0x3a, 0x0a, 0x49, 0x06, 0x24, 0x5c, 0xc2, 0xd3, 0xac, 0x62, 0x91, 0x95, 0xe4, 0x79,
   0xe7, 0xc8, 0x37, 0x6d, 0x8d, 0xd5, 0x4e, 0xa9, 0x6c, 0x56, 0xf4, 0xea, 0x65, 0x7a, 0xae, 0x08,
   0xba, 0x78, 0x25, 0x2e, 0x1c, 0xa6, 0xb4, 0xc6, 0xe8, 0xdd, 0x74, 0x1f, 0x4b, 0xbd, 0x8b, 0x8a,
   0x70, 0x3e, 0xb5, 0x66, 0x48, 0x03, 0xf6, 0x0e, 0x61, 0x35, 0x57, 0xb9, 0x86, 0xc1, 0x1d, 0x9e,
   0xe1, 0xf8, 0x98, 0x11, 0x69, 0xd9, 0x8e, 0x94, 0x9b, 0x1e, 0x87, 0xe9, 0xce, 0x55, 0x28, 0xdf,
   0x8c, 0xa1, 0x89, 0x0d, 0xbf, 0xe6, 0x42, 0x68, 0x41, 0x99, 0x2d, 0x0f, 0xb0, 0x54, 0xbb, 0x16]

def sub_byte (b : Nat) : Nat := sbox.getD b 0

/-- GF(2^8) doubling (`xtime`). -/
def gmul2 (b : Nat) : Nat := if 128 ≤ b then Nat.xor ((b * 2) % 256) 27 else b * 2

def gmul3 (b : Nat) : Nat := Nat.xor (gmul2 b) b

def xor_word (a b : List Nat) : List Nat := List.zipWith Nat.xor a b

def rot_word (w : List Nat) : List Nat :=
  match w with
  | a :: rest => rest ++ [a]
  | [] => []

def sub_word (w : List Nat) : List Nat := w.map sub_byte

/-- AES key-schedule round constants. -/
def RCON : List Nat := [1, 2, 4, 8, 16, 32, 64, 128, 27, 54]

/-- Extends the word list of the AES-128 key schedule by `t` words. -/
def expand_words : Nat → List (List Nat) → List (List Nat)
  | 0, ws => ws
  | t + 1, ws =>
    let i := ws.length
    let prev := ws.getD (i - 1) []
    let temp := if i % 4 == 0 then
        xor_word (sub_word (rot_word prev)) [RCON.getD (i / 4 - 1) 0, 0, 0, 0]
      else prev
    expand_words t (ws ++ [xor_word (ws.getD (i - 4) []) temp])

/-- The 44 words of the AES-128 key schedule. -/
def key_words (key : List Nat) : List (List Nat) :=
  expand_words 40 [key.take 4, (key.drop 4).take 4, (key.drop 8).take 4, (key.drop 12).take 4]

/-- Round key `r` (16 bytes). -/
def round_key (key : List Nat) (r : Nat) : List Nat :=
  let ws := key_words key
  ws.getD (4 * r) [] ++ ws.getD (4 * r + 1) [] ++ ws.getD (4 * r + 2) [] ++ ws.getD (4 * r + 3) []

/-- ShiftRows on the flat (column-major) 16-byte state. -/
def shift_rows (s : List Nat) : List Nat :=
  [s.getD 0 0, s.getD 5 0, s.getD 10 0, s.getD 15 0,
   s.getD 4 0, s.getD 9 0, s.getD 14 0, s.getD 3 0,
   s.getD 8 0, s.getD 13 0, s.getD 2 0, s.getD 7 0,
   s.getD 12 0, s.getD 1 0, s.getD 6 0, s.getD 11 0]

/-- MixColumns on one 4-byte column. -/
def mix_column (col : List Nat) : List Nat :=
  match col with
  | [a, b, c, d] =>
    [Nat.xor (gmul2 a) (Nat.xor (gmul3 b) (Nat.xor c d)),
     Nat.xor a (Nat.xor (gmul2 b) (Nat.xor (gmul3 c) d)),
     Nat.xor a (Nat.xor b (Nat.xor (gmul2 c) (gmul3 d))),
     Nat.xor (gmul3 a) (Nat.xor b (Nat.xor c (gmul2 d)))]
  | _ => col

def mix_columns (s : List Nat) : List Nat :=
  mix_column (s.take 4) ++ mix_column ((s.drop 4).take 4)
    ++ mix_column ((s.drop 8).take 4) ++ mix_column ((s.drop 12).take 4)

def add_round_key (s k : List Nat) : List Nat := List.zipWith Nat.xor s k

/-- One middle AES round. -/
def aes_round (key : List Nat) (r : Nat) (s : List Nat) : List Nat :=
  add_round_key (mix_columns (shift_rows (s.map sub_byte))) (round_key key r)

/-- AES-128 block encryption (10 rounds). -/
def encrypt_block (key block : List Nat) : List Nat :=
  let s0 := add_round_key block (round_key key 0)
  let s9 := (List.range 9).foldl (fun s i => aes_round key (i + 1) s) s0
  add_round_key (shift_rows (s9.map sub_byte)) (round_key key 10)

/-- Counter block `i` for the all-zero IV of `decrypt_track` (`Ctr128BE`). -/
def ctr_block (i : Nat) : List Nat := be_bytes 16 i

/-- First `n` bytes of the AES-128-CTR keystream from counter zero. -/
def keystream (key : List Nat) (n : Nat) : List Nat :=
  (List.flatten ((List.range ((n + 15) / 16)).map
      (fun i => encrypt_block key (ctr_block i)))).take n

/-- `StreamCipher::apply_keystream` starting at keystream position zero:
byte-wise XOR against the CTR keystream. -/
def apply_keystream (key data : List Nat) : List Nat :=
  List.zipWith Nat.xor data (keystream key data.length)

def hex_digit (c : Char) : Option Nat :=
  if '0' ≤ c ∧ c ≤ '9' then some (c.toNat - 48)
  else if 'a' ≤ c ∧ c ≤ 'f' then some (c.toNat - 87)
  else if 'A' ≤ c ∧ c ≤ 'F' then some (c.toNat - 55)
  else none

def hex_decode_chars : List Char → Option (List Nat)
  | [] => some []
  | [_] => none
  | a :: b :: rest =>
    match hex_digit a, hex_digit b, hex_decode_chars rest with
    | some x, some y, some tl => some ((x * 16 + y) :: tl)
    | _, _, _ => none

/-- `hex::decode` of the key string returned in the download info. -/
def hex_decode (s : String) : Option (List Nat) := hex_decode_chars s.data

/-- The byte transformation of `decrypt_track`: decode the hex key, require
exactly 16 bytes, then XOR the data against the AES-128-CTR keystream
(all-zero IV). -/
def decrypt_track_bytes (key : String) (enc_data : List Nat) : Except String (List Nat) :=
  match hex_decode key with
  | none => Except.error "invalid hex"
  | some key_vec =>
    if key_vec.length = 16 then Except.ok (apply_keystream key_vec enc_data)
    else Except.error "key must be 16 bytes"

/-- Modelled from the spec: `encrypt_via_reference_ctr`, reference CTR
encryption with matching keystream position (AES-128-CTR, all-zero IV, counter
from zero).  In CTR mode encryption is the same keystream XOR as decryption. -/
def encrypt_via_reference_ctr (key data : List Nat) : List Nat :=
  List.zipWith Nat.xor data (keystream key data.length)

/-! ### Length bookkeeping for the keystream -/

theorem getD_mem_of_lt {α : Type} (l : List α) (n : Nat) (d : α) (h : n < l.length) :
    l.getD n d ∈ l := by
  rw [List.getD_eq_getElem?_getD, List.getElem?_eq_getElem h]
  exact List.getElem_mem h

theorem xor_word_length (a b : List Nat) (ha : a.length = 4) (hb : b.length = 4) :
    (xor_word a b).length = 4 := by
  simp [xor_word, ha, hb]

theorem expand_words_sound (t : Nat) (ws : List (List Nat))
    (hlen : 4 ≤ ws.length) (hmem : ∀ w ∈ ws, w.length = 4) :
    (expand_words t ws).length = ws.length + t
    ∧ ∀ w ∈ expand_words t ws, w.length = 4 := by
  induction t generalizing ws with
  | zero => exact ⟨rfl, hmem⟩
  | succ t ih =>
    have hprev : ws.getD (ws.length - 1) [] ∈ ws :=
      getD_mem_of_lt ws _ [] (by omega)
    have hw4 : ws.getD (ws.length - 4) [] ∈ ws :=
      getD_mem_of_lt ws _ [] (by omega)
    have hprev4 : (ws.getD (ws.length - 1) []).length = 4 := hmem _ hprev
    have hw44 : (ws.getD (ws.length - 4) []).length = 4 := hmem _ hw4
    have htemp : ∀ c : Bool, (if c = true then
        xor_word (sub_word (rot_word (ws.getD (ws.length - 1) [])))
          [RCON.getD (ws.length / 4 - 1) 0, 0, 0, 0]
        else ws.getD (ws.length - 1) []).length = 4 := by
      intro c
      cases c with
      | false => simpa using hprev4
      | true =>
        have hr : (rot_word (ws.getD (ws.length - 1) [])).length = 4 := by
          cases hp : ws.getD (ws.length - 1) [] with
          | nil => rw [hp] at hprev4; simp at hprev4
          | cons a rest =>
            rw [hp] at hprev4
            rw [rot_word]
            simp only [List.length_cons] at hprev4
            simp only [List.length_append, List.length_cons, List.length_nil]
            omega
        apply xor_word_length
        · rw [sub_word, List.length_map]
          exact hr
        · rfl
    have hnew : (expand_words (t + 1) ws)
        = expand_words t (ws ++ [xor_word (ws.getD (ws.length - 4) [])
            (if ws.length % 4 == 0 then
              xor_word (sub_word (rot_word (ws.getD (ws.length - 1) [])))
                [RCON.getD (ws.length / 4 - 1) 0, 0, 0, 0]
              else ws.getD (ws.length - 1) [])] ) := rfl
    have hlast : (xor_word (ws.getD (ws.length - 4) [])
        (if ws.length % 4 == 0 then
          xor_word (sub_word (rot_word (ws.getD (ws.length - 1) [])))
            [RCON.getD (ws.length / 4 - 1) 0, 0, 0, 0]
          else ws.getD (ws.length - 1) [])).length = 4 := by
      apply xor_word_length _ _ hw44
      by_cases hc : ws.length % 4 == 0
      · simpa [hc] using htemp true
      · simp only [hc, if_false]
        exact hprev4
    have hmem2 : ∀ w ∈ (ws ++ [xor_word (ws.getD (ws.length - 4) [])
        (if ws.length % 4 == 0 then
          xor_word (sub_word (rot_word (ws.getD (ws.length - 1) [])))
            [RCON.getD (ws.length / 4 - 1) 0, 0, 0, 0]
          else ws.getD (ws.length - 1) [])]), w.length = 4 := by
      intro w hw
      rcases List.mem_append.1 hw with h | h
      · exact hmem w h
      · rcases List.mem_singleton.1 h with rfl
        exact hlast
    have := ih _ (by simp; omega) hmem2
    rw [hnew]
    refine ⟨?_, this.2⟩
    rw [this.1]
    simp
    omega

theorem round_key_length (key : List Nat) (hk : key.length = 16) (r : Nat) (hr : r ≤ 10) :
    (round_key key r).length = 16 := by
  have hinit : ∀ w ∈ [key.take 4, (key.drop 4).take 4, (key.drop 8).take 4,
      (key.drop 12).take 4], w.length = 4 := by
    intro w hw
    simp only [List.mem_cons, List.mem_singleton] at hw
    rcases hw with rfl | rfl | rfl | rfl | h
    · simp [hk]
    · simp [hk]
    · simp [hk]
    · simp [hk]
    · simp at h
  have h := expand_words_sound 40 _ (by simp) hinit
  have hlen : (key_words key).length = 44 := by
    rw [key_words, h.1]
    rfl
  have hm : ∀ i, i < 44 → ((key_words key).getD i []).length = 4 := by
    intro i hi
    have hlt : i < (key_words key).length := by rw [hlen]; omega
    exact h.2 _ (getD_mem_of_lt (key_words key) i [] hlt)
  rw [round_key]
  simp only [List.length_append]
  rw [hm (4 * r) (by omega), hm (4 * r + 1) (by omega),
    hm (4 * r + 2) (by omega), hm (4 * r + 3) (by omega)]

theorem mix_column_length_of_four (col : List Nat) (h : col.length = 4) :
    (mix_column col).length = 4 := by
  match col, h with
  | [a, b, c, d], _ => rfl

theorem mix_columns_length (s : List Nat) (h : s.length = 16) :
    (mix_columns s).length = 16 := by
  rw [mix_columns]
  simp only [List.length_append]
  rw [mix_column_length_of_four _ (by simp [h]), mix_column_length_of_four _ (by simp [h]),
    mix_column_length_of_four _ (by simp [h]), mix_column_length_of_four _ (by simp [h])]

theorem shift_rows_length (s : List Nat) : (shift_rows s).length = 16 := rfl

theorem aes_round_length (key : List Nat) (hk : key.length = 16) (r : Nat) (hr : r ≤ 10)
    (s : List Nat) (_hs : s.length = 16) : (aes_round key r s).length = 16 := by
  rw [aes_round, add_round_key]
  rw [List.length_zipWith, round_key_length key hk r hr,
    mix_columns_length _ (shift_rows_length _)]
  simp

theorem encrypt_block_length (key block : List Nat) (hk : key.length = 16)
    (hb : block.length = 16) : (encrypt_block key block).length = 16 := by
  rw [encrypt_block]
  have h0 : (add_round_key block (round_key key 0)).length = 16 := by
    rw [add_round_key, List.length_zipWith, hb, round_key_length key hk 0 (by omega)]
    simp
  have h9 : ∀ (l : List Nat), (∀ i ∈ l, i + 1 ≤ 10) → ∀ (s : List Nat), s.length = 16 →
      (l.foldl (fun s i => aes_round key (i + 1) s) s).length = 16 := by
    intro l
    induction l with
    | nil => intro _ s hs; simpa using hs
    | cons a l ih =>
      intro hmem s hs
      simp only [List.foldl_cons]
      exact ih (fun i hi => hmem i (List.mem_cons_of_mem a hi)) _
        (aes_round_length key hk (a + 1) (hmem a (List.mem_cons_self a l)) s hs)
  have hfold : ((List.range 9).foldl (fun s i => aes_round key (i + 1) s)
      (add_round_key block (round_key key 0))).length = 16 := by
    apply h9
    · intro i hi
      have := List.mem_range.1 hi
      omega
    · exact h0
  rw [add_round_key, List.length_zipWith, shift_rows_length,
    round_key_length key hk 10 (by omega)]
  simp

theorem ctr_block_length (i : Nat) : (ctr_block i).length = 16 := by
  simp only [ctr_block, be_bytes, List.length_map, List.length_range]

theorem flatten_blocks_length (key : List Nat) (hk : key.length = 16) (l : List Nat) :
    (List.flatten (l.map (fun i => encrypt_block key (ctr_block i)))).length
      = 16 * l.length := by
  induction l with
  | nil => simp
  | cons a l ih =>
    simp only [List.map_cons, List.flatten_cons, List.length_append, ih,
      encrypt_block_length key (ctr_block a) hk (ctr_block_length a), List.length_cons]
    ring

theorem keystream_length (key : List Nat) (hk : key.length = 16) (n : Nat) :
    (keystream key n).length = n := by
  rw [keystream, List.length_take, flatten_blocks_length key hk, List.length_range]
  have hdm := Nat.div_add_mod (n + 15) 16
  have hmod : (n + 15) % 16 < 16 := Nat.mod_lt _ (by omega)
  omega

/-! ### CTR involution -/

theorem zipWith_xor_cancel (p : List Nat) :
    ∀ (ks : List Nat), p.length ≤ ks.length →
      List.zipWith Nat.xor (List.zipWith Nat.xor p ks) ks = p := by
  induction p with
  | nil => intro ks _; simp
  | cons a p ih =>
    intro ks hlen
    cases ks with
    | nil => simp at hlen
    | cons k ks =>
      simp only [List.zipWith_cons_cons, List.cons.injEq]
      exact ⟨Nat.xor_cancel_right k a, ih ks (by simpa using hlen)⟩

theorem apply_keystream_length (key p : List Nat) (hk : key.length = 16) :
    (apply_keystream key p).length = p.length := by
  rw [apply_keystream, List.length_zipWith, keystream_length key hk]
  simp

/-- Applying the CTR keystream twice restores the input: the keystream depends
only on the key and the data length, and XOR is an involution. -/
theorem apply_keystream_involution (key p : List Nat) (hk : key.length = 16) :
    apply_keystream key (apply_keystream key p) = p := by
  have hlen := apply_keystream_length key p hk
  conv_lhs => rw [apply_keystream, hlen]
  rw [apply_keystream]
  exact zipWith_xor_cancel p _ (by rw [keystream_length key hk])

/-! ## Claim C4 -/

/-- C4 (amended): the `decrypt_track` transformation is a CTR keystream XOR, so
applying it twice to a payload always returns the original payload — decrypt is
its own inverse, contrary to the claim that a double decrypt does not restore
the payload in general — and decrypting a payload encrypted by the reference
CTR encryption with matching keystream position also restores the payload. -/
theorem decrypt_track_bytes_involution (keyHex : String) (k16 p : List Nat)
    (hk : hex_decode keyHex = some k16) (h16 : k16.length = 16) :
    decrypt_track_bytes keyHex p = Except.ok (apply_keystream k16 p)
    ∧ decrypt_track_bytes keyHex (apply_keystream k16 p) = Except.ok p
    ∧ decrypt_track_bytes keyHex (encrypt_via_reference_ctr k16 p) = Except.ok p := by
  have hdec : ∀ q : List Nat, decrypt_track_bytes keyHex q
      = Except.ok (apply_keystream k16 q) := by
    intro q
    rw [decrypt_track_bytes, hk]
    simp [h16]
  refine ⟨hdec p, ?_, ?_⟩
  · rw [hdec (apply_keystream k16 p), apply_keystream_involution k16 p h16]
  · have henc : encrypt_via_reference_ctr k16 p = apply_keystream k16 p := rfl
    rw [henc, hdec (apply_keystream k16 p), apply_keystream_involution k16 p h16]

/-- C4 counterexample to the claim as stated: at a concrete 16-byte key and a
concrete payload, decrypting the output of decrypt returns the original
payload, so `decrypt(decrypt(payload, key)) == payload` does hold. -/
theorem decrypt_double_restores_payload :
    decrypt_track_bytes "000102030405060708090a0b0c0d0e0f" [1, 2, 3]
      = Except.ok (apply_keystream [0, 1, 2, 3, 4, 5, 6, 7, 8, 9, 10, 11, 12, 13, 14, 15] [1, 2, 3])
    ∧ decrypt_track_bytes "000102030405060708090a0b0c0d0e0f"
        (apply_keystream [0, 1, 2, 3, 4, 5, 6, 7, 8, 9, 10, 11, 12, 13, 14, 15] [1, 2, 3])
      = Except.ok [1, 2, 3] := by
  have hk : hex_decode "000102030405060708090a0b0c0d0e0f"
      = some [0, 1, 2, 3, 4, 5, 6, 7, 8, 9, 10, 11, 12, 13, 14, 15] := by decide
  have hdec : ∀ q : List Nat, decrypt_track_bytes "000102030405060708090a0b0c0d0e0f" q
      = Except.ok (apply_keystream [0, 1, 2, 3, 4, 5, 6, 7, 8, 9, 10, 11, 12, 13, 14, 15] q) := by
    intro q
    rw [decrypt_track_bytes, hk]
    simp
  refine ⟨hdec _, ?_⟩
  rw [hdec _, apply_keystream_involution _ _ (by decide)]

theorem decrypt_track_bytes_involution_witness :
    decrypt_track_bytes "00000000000000000000000000000000" [7, 7]
      = Except.ok (apply_keystream [0, 0, 0, 0, 0, 0, 0, 0, 0, 0, 0, 0, 0, 0, 0, 0] [7, 7])
    ∧ decrypt_track_bytes "00000000000000000000000000000000"
        (apply_keystream [0, 0, 0, 0, 0, 0, 0, 0, 0, 0, 0, 0, 0, 0, 0, 0] [7, 7])
      = Except.ok [7, 7] :=
  ⟨(decrypt_track_bytes_involution "00000000000000000000000000000000"
      [0, 0, 0, 0, 0, 0, 0, 0, 0, 0, 0, 0, 0, 0, 0, 0] [7, 7] (by decide) (by decide)).1,
   (decrypt_track_bytes_involution "00000000000000000000000000000000"
      [0, 0, 0, 0, 0, 0, 0, 0, 0, 0, 0, 0, 0, 0, 0, 0] [7, 7] (by decide) (by decide)).2.1⟩

/-! ## `structs.rs`: `ParsedAlbumMeta` -/

/-- Embedding of `ParsedAlbumMeta` (`u16` fields as `Nat`, cover bytes as a
byte list). -/
structure ParsedAlbumMeta where
  album_title : String
  album_artist : String
  artist : String
  cover_data : List Nat
  genre : Option String
  lyrics_avail : Option Bool
  is_track_only : Bool
  label : String
  title : String
  timed_lyrics : Option String
  untimed_lyrics : Option String
  track_num : Nat
  track_total : Nat
  year : Option Nat
deriving DecidableEq, Repr

/-! ## `main.rs`: tag writers

Each writer is embedded as the sequence of mutations it performs on the tag
object of its library (`metaflac` vorbis comments, `id3` frame setters,
`mp4ameta` atom setters), in source order.  A `TagWrite` is one such
mutation. -/

inductive TagWrite where
  /-- `Tag::set_vorbis` on a FLAC comment block. -/
  | vorbis (key : String) (value : String)
  /-- `Tag::add_picture` / `add_frame(Picture)` / `add_data(covr)`. -/
  | picture
  /-- A text-valued `id3::TagLike` setter (`set_album`, `set_genre`, ...). -/
  | mp3_text (field : String) (value : String)
  /-- A numeric `id3::TagLike` setter (`set_track`, `set_total_tracks`, `set_year`). -/
  | mp3_num (field : String) (value : Nat)
  /-- A text-valued `mp4ameta::Tag` setter. -/
  | mp4_text (field : String) (value : String)
  /-- `mp4ameta::Tag::set_track(track_number, track_total)`. -/
  | mp4_trkn (num total : Nat)
deriving DecidableEq, Repr

/-- Embedding of `main.rs::set_vorbis`: writes the comment only when the value
is non-empty. -/
def set_vorbis (key value : String) : List TagWrite :=
  if value ≠ "" then [TagWrite.vorbis key value] else []

/-- Embedding of `main.rs::set_vorbis_num`: writes the comment only when the
number is positive. -/
def set_vorbis_num (key : String) (n : Nat) : List TagWrite :=
  if n > 0 then [TagWrite.vorbis key (Nat.repr n)] else []

/-- Embedding of `write_flac_tags`, in source order. -/
def write_flac_tags (meta : ParsedAlbumMeta) : List TagWrite :=
  set_vorbis "ALBUM" meta.album_title
  ++ set_vorbis "ALBUMARTIST" meta.album_artist
  ++ set_vorbis "ARTIST" meta.artist
  ++ set_vorbis "LABEL" meta.label
  ++ set_vorbis "TITLE" meta.title
  ++ set_vorbis_num "TRACKNUMBER" meta.track_num
  ++ set_vorbis_num "TRACKTOTAL" meta.track_total
  ++ (if meta.cover_data ≠ [] then [TagWrite.picture] else [])
  ++ (match meta.genre with
      | some genre => set_vorbis "GENRE" genre
      | none => [])
  ++ (match meta.year with
      | some year => set_vorbis_num "YEAR" year
      | none => [])
  ++ (match meta.untimed_lyrics with
      | some lyrics => set_vorbis "UNSYNCEDLYRICS" lyrics
      | none => [])
  ++ (match meta.timed_lyrics with
      | some lyrics => set_vorbis "LYRICS" lyrics
      | none => [])

/-- Embedding of `write_mp3_tags`, in source order: the album/artist/title and
the `set_track`/`set_total_tracks` calls are unconditional. -/
def write_mp3_tags (meta : ParsedAlbumMeta) : List TagWrite :=
  [TagWrite.mp3_text "album" meta.album_title,
   TagWrite.mp3_text "album_artist" meta.album_artist,
   TagWrite.mp3_text "artist" meta.artist,
   TagWrite.mp3_text "title" meta.title,
   TagWrite.mp3_num "track" meta.track_num,
   TagWrite.mp3_num "total_tracks" meta.track_total]
  ++ (if meta.cover_data ≠ [] then [TagWrite.picture] else [])
  ++ (match meta.genre with
      | some genre => [TagWrite.mp3_text "genre" genre]
      | none => [])
  ++ (match meta.year with
      | some year => [TagWrite.mp3_num "year" year]
      | none => [])
  ++ (match meta.untimed_lyrics with
      | some lyrics => [TagWrite.mp3_text "USLT" lyrics]
      | none => [])
  ++ (match meta.timed_lyrics with
      | some lyrics => [TagWrite.mp3_text "SYLT" lyrics]
      | none => [])

/-- Embedding of `write_mp4_tags`, in source order: the `set_track` pair is
unconditional; timed lyrics are preferred over untimed when both exist. -/
def write_mp4_tags (meta : ParsedAlbumMeta) : List TagWrite :=
  [TagWrite.mp4_text "album" meta.album_title,
   TagWrite.mp4_text "album_artist" meta.album_artist,
   TagWrite.mp4_text "artist" meta.artist,
   TagWrite.mp4_text "title" meta.title,
   TagWrite.mp4_trkn meta.track_num meta.track_total]
  ++ (if meta.cover_data ≠ [] then [TagWrite.picture] else [])
  ++ (match meta.genre with
      | some genre => [TagWrite.mp4_text "genre" genre]
      | none => [])
  ++ (match meta.year with
      | some year => [TagWrite.mp4_text "year" (Nat.repr year)]
      | none => [])
  ++ (match meta.timed_lyrics with
      | some lyrics => [TagWrite.mp4_text "lyrics" lyrics]
      | none =>
        match meta.untimed_lyrics with
        | some lyrics => [TagWrite.mp4_text "lyrics" lyrics]
        | none => [])

theorem mem_set_vorbis (x : TagWrite) (key value : String) :
    x ∈ set_vorbis key value ↔ value ≠ "" ∧ x = TagWrite.vorbis key value := by
  rw [set_vorbis]
  by_cases h : value = "" <;> simp [h]

theorem mem_set_vorbis_num (x : TagWrite) (key : String) (n : Nat) :
    x ∈ set_vorbis_num key n ↔ 0 < n ∧ x = TagWrite.vorbis key (Nat.repr n) := by
  rw [set_vorbis_num]
  by_cases h : 0 < n <;> simp [h]

/-! ## Claim C5 -/

/-- C5 (amended): with `genre = None` and `year = None` no genre or year entry
is written by any of the three tag writers, and the FLAC writer omits
zero-valued numeric fields (track number, track total, and a zero year); the
MP3 and MP4 writers however write the track number and track total
unconditionally — a zero value is written as a literal zero there, contrary to
the claim's universal omission of zero numerics. -/
theorem tag_field_omission (meta : ParsedAlbumMeta)
    (hg : meta.genre = none) (hy : meta.year = none) :
    (∀ g, TagWrite.vorbis "GENRE" g ∉ write_flac_tags meta)
    ∧ (∀ y, TagWrite.vorbis "YEAR" y ∉ write_flac_tags meta)
    ∧ (∀ g, TagWrite.mp3_text "genre" g ∉ write_mp3_tags meta)
    ∧ (∀ y, TagWrite.mp3_num "year" y ∉ write_mp3_tags meta)
    ∧ (∀ g, TagWrite.mp4_text "genre" g ∉ write_mp4_tags meta)
    ∧ (∀ y, TagWrite.mp4_text "year" y ∉ write_mp4_tags meta)
    ∧ (meta.track_num = 0 → ∀ v, TagWrite.vorbis "TRACKNUMBER" v ∉ write_flac_tags meta)
    ∧ (meta.track_total = 0 → ∀ v, TagWrite.vorbis "TRACKTOTAL" v ∉ write_flac_tags meta)
    ∧ TagWrite.mp3_num "track" meta.track_num ∈ write_mp3_tags meta
    ∧ TagWrite.mp3_num "total_tracks" meta.track_total ∈ write_mp3_tags meta
    ∧ TagWrite.mp4_trkn meta.track_num meta.track_total ∈ write_mp4_tags meta := by
  refine ⟨?_, ?_, ?_, ?_, ?_, ?_, ?_, ?_, ?_, ?_, ?_⟩
  · intro g
    cases hu : meta.untimed_lyrics <;> cases ht : meta.timed_lyrics <;>
      simp [write_flac_tags, hg, hy, hu, ht, mem_set_vorbis, mem_set_vorbis_num]
  · intro y
    cases hu : meta.untimed_lyrics <;> cases ht : meta.timed_lyrics <;>
      simp [write_flac_tags, hg, hy, hu, ht, mem_set_vorbis, mem_set_vorbis_num]
  · intro g
    cases hu : meta.untimed_lyrics <;> cases ht : meta.timed_lyrics <;>
      simp [write_mp3_tags, hg, hy, hu, ht]
  · intro y
    cases hu : meta.untimed_lyrics <;> cases ht : meta.timed_lyrics <;>
      simp [write_mp3_tags, hg, hy, hu, ht]
  · intro g
    cases hu : meta.untimed_lyrics <;> cases ht : meta.timed_lyrics <;>
      simp [write_mp4_tags, hg, hy, hu, ht]
  · intro y
    cases hu : meta.untimed_lyrics <;> cases ht : meta.timed_lyrics <;>
      simp [write_mp4_tags, hg, hy, hu, ht]
  · intro h0 v
    cases hu : meta.untimed_lyrics <;> cases ht : meta.timed_lyrics <;>
      simp [write_flac_tags, hg, hy, hu, ht, mem_set_vorbis, mem_set_vorbis_num, h0]
  · intro h0 v
    cases hu : meta.untimed_lyrics <;> cases ht : meta.timed_lyrics <;>
      simp [write_flac_tags, hg, hy, hu, ht, mem_set_vorbis, mem_set_vorbis_num, h0]
  · simp [write_mp3_tags]
  · simp [write_mp3_tags]
  · simp [write_mp4_tags]

/-- C5 counterexample to the claim as stated: a metadata record with track
number zero still gets a literal-zero track entry from the MP3 writer and a
literal-zero track pair from the MP4 writer. -/
theorem zero_track_number_written :
    TagWrite.mp3_num "track" 0
      ∈ write_mp3_tags ⟨"A", "AA", "Ar", [], none, none, false, "L", "T",
          none, none, 0, 0, none⟩
    ∧ TagWrite.mp4_trkn 0 0
      ∈ write_mp4_tags ⟨"A", "AA", "Ar", [], none, none, false, "L", "T",
          none, none, 0, 0, none⟩ := by
  refine ⟨?_, ?_⟩ <;> decide

theorem tag_field_omission_witness :
    TagWrite.vorbis "GENRE" "Rock"
      ∉ write_flac_tags ⟨"A", "AA", "Ar", [], none, none, false, "L", "T",
          none, none, 0, 0, none⟩
    ∧ TagWrite.mp3_num "track" 0
      ∈ write_mp3_tags ⟨"A", "AA", "Ar", [], none, none, false, "L", "T",
          none, none, 0, 0, none⟩ :=
  ⟨(tag_field_omission _ rfl rfl).1 "Rock",
   (tag_field_omission ⟨"A", "AA", "Ar", [], none, none, false, "L", "T",
      none, none, 0, 0, none⟩ rfl rfl).2.2.2.2.2.2.2.2.1⟩

/-! ## `utils.rs`: sanitising and templating -/

def starts_with_chars : List Char → List Char → Bool
  | _, [] => true
  | [], _ :: _ => false
  | a :: s, b :: p => a = b && starts_with_chars s p

/-- Rust `str::replace`: replaces non-overlapping occurrences left to right,
fuelled by the string length (sufficient, as each step consumes at least one
character). -/
def replace_chars (pat rep : List Char) : Nat → List Char → List Char
  | 0, s => s
  | _ + 1, [] => []
  | fuel + 1, a :: rest =>
    if pat.isEmpty = false ∧ starts_with_chars (a :: rest) pat = true then
      rep ++ replace_chars pat rep fuel ((a :: rest).drop pat.length)
    else a :: replace_chars pat rep fuel rest

def replace_str (s pat rep : String) : String :=
  ⟨replace_chars pat.data rep.data s.data.length s.data⟩

/-- The characters of the sanitising regex `[\/:*?"><|]`. -/
def SAN_CHARS : List Char := ['/', ':', '*', '?', '"', '>', '<', '|']

def drop_trailing (p : Char → Bool) (l : List Char) : List Char :=
  (l.reverse.dropWhile p).reverse

/-- Embedding of `utils::sanitise`: replaces each filesystem-reserved character
with an underscore, then trims leading whitespace (and, for directory-level
names, surrounding whitespace and trailing periods). -/
def sanitise (filename : String) (trim_periods : Bool) : String :=
  let sanitised := filename.data.map (fun c => if SAN_CHARS.contains c then '_' else c)
  if trim_periods then
    ⟨drop_trailing (fun c => c = '.')
      (drop_trailing Char.isWhitespace (sanitised.dropWhile Char.isWhitespace))⟩
  else
    ⟨sanitised.dropWhile Char.isWhitespace⟩

/-- Embedding of `parse_template`: substitutes each `\x7bkey\x7d` placeholder
and sanitises the result as a file name.  The Rust code iterates a `HashMap`
in arbitrary order; the embedding fixes the list order, observationally equal
whenever substituted values do not themselves contain placeholders. -/
def parse_template (template : String) (replacements : List (String × String)) : String :=
  let result := replacements.foldl
    (fun acc kv => replace_str acc ("\x7b" ++ kv.1 ++ "\x7d") kv.2) template
  sanitise result false

def parse_track_template (template : String) (meta : ParsedAlbumMeta) (padding : String) :
    String :=
  parse_template template
    [("track_num", Nat.repr meta.track_num), ("track_num_pad", padding),
     ("title", meta.title), ("artist", meta.artist)]

/-! ## `api/structs.rs`: `DownloadInfo`; `utils.rs`: `file_exists` -/

structure DownloadInfo where
  key : String
  url : String
  bitrate : Nat
  codec : String
deriving DecidableEq, Repr

/-- A `std::io::Error`, reduced to what the source inspects: its `kind()`
compared against `NotFound`, and `raw_os_error()`. -/
structure IoErr where
  is_not_found : Bool
  raw_os : Option Nat
deriving DecidableEq, Repr

/-- Embedding of `utils::file_exists`: the argument is the outcome of
`fs::metadata(file_path)` with `meta.is_file()` applied on the success side; a
`NotFound` error maps to `Ok(false)`, every other error propagates. -/
def file_exists (metadata_result : Except IoErr Bool) : Except IoErr Bool :=
  match metadata_result with
  | .ok is_file => .ok is_file
  | .error err => if err.is_not_found then .ok false else .error err

/-- Embedding of `parse_specs`: display string and file extension per codec
identifier, `None` for unrecognized codecs. -/
def parse_specs (codec : String) (bitrate : Nat) : Option (String × String) :=
  match codec with
  | "flac-mp4" => some ("FLAC", ".flac")
  | "mp3-mp4" => some (Nat.repr bitrate ++ " Kbps MP3", ".mp3")
  | "aac-mp4" => some (Nat.repr bitrate ++ " Kbps AAC", ".m4a")
  | "he-aac-mp4" => some (Nat.repr bitrate ++ " Kbps AAC", ".m4a")
  | _ => none

/-! ## `main.rs`: the per-track pipeline as an effect trace

The pipeline's external interactions are events; their outcomes are drawn from
an environment record, so `process_track` is a pure function of that
environment. -/

inductive NetCall where
  | get_file_info (track_id quality : String)
  | get_file_resp (url : String) (with_range : Bool)
  | get_lyrics_meta (track_id : String) (timed : Bool)
deriving DecidableEq, Repr

inductive FsOp where
  /-- `File::create` followed by streamed writes. -/
  | create_write (path : String)
  /-- `fs::read`. -/
  | read_file (path : String)
  /-- `fs::write`. -/
  | write_file (path : String)
  /-- `fs::remove_file` (emitted when the removal succeeds). -/
  | remove_file (path : String)
  /-- The external ffmpeg subprocess producing its output container. -/
  | mux_output (input output : String)
  /-- `fs::rename`; the source never performs one, so no code path below emits
  this event — the constructor exists so that its absence is statable. -/
  | rename_file (src dst : String)
  /-- A tag writer reading and rewriting the finished file in place. -/
  | write_tags_file (path : String)
deriving DecidableEq, Repr

inductive Eff where
  | net (c : NetCall)
  | fs (o : FsOp)
  | println (s : String)
deriving DecidableEq, Repr

inductive TrackErr where
  | msg (s : String)
  | io_error (e : IoErr)
deriving DecidableEq, Repr

instance {ε α : Type} [DecidableEq ε] [DecidableEq α] : DecidableEq (Except ε α) :=
  fun a b =>
    match a, b with
    | .ok x, .ok y =>
      if h : x = y then .isTrue (congrArg Except.ok h)
      else .isFalse (fun hc => h (Except.ok.inj hc))
    | .error x, .error y =>
      if h : x = y then .isTrue (congrArg Except.error h)
      else .isFalse (fun hc => h (Except.error.inj hc))
    | .ok _, .error _ => .isFalse (fun hc => Except.noConfusion hc)
    | .error _, .ok _ => .isFalse (fun hc => Except.noConfusion hc)

/-- Outcomes of the pipeline's external interactions for a single
`process_track` invocation. -/
structure Env where
  /-- `get_file_info` response. -/
  file_info : Except String DownloadInfo
  /-- `fs::metadata` on the computed track path (`is_file()` applied). -/
  metadata_result : Except IoErr Bool
  /-- Ranged media fetch and its content-length check. -/
  download_resp : Except String Unit
  /-- `File::create` plus the buffered copy loop. -/
  download_io : Except String Unit
  /-- `fs::read` of the downloaded `.incomplete` file. -/
  enc_read : Except String (List Nat)
  /-- `fs::write` of the decrypted bytes. -/
  dec_write : Except String Unit
  /-- ffmpeg exit status; the error carries the captured standard error. -/
  mux_ok : Except String Unit
  /-- Removal of the `.incomplete` file. -/
  remove_incomp : Except String Unit
  /-- Removal of the `.incomplete_dec.mp4` file. -/
  remove_dec : Except String Unit
  /-- `get_lyrics_meta` response (the download URL). -/
  lyrics_meta : Except String String
  /-- Body of the lyrics download. -/
  lyrics_body : Except String String
  /-- `File::create` + write of the `.lrc` sidecar. -/
  lrc_write : Except String Unit
  /-- The tag writer's read-modify-write of the finished file. -/
  tags_ok : Except String Unit
deriving DecidableEq, Repr

/-- The relevant `Config` fields. -/
structure Config where
  format_str : String
  track_template : String
  write_lyrics : Bool
  ffmpeg_path : String
deriving DecidableEq, Repr

structure TrackResult where
  result : Except TrackErr Unit
  meta : ParsedAlbumMeta
  trace : List Eff
deriving DecidableEq, Repr

/-- Embedding of `download_track`: ranged fetch, then create-and-stream into
the `.incomplete` path. -/
def download_track (env : Env) (url out_path : String) : Except String Unit × List Eff :=
  match env.download_resp with
  | .error e => (.error e, [.net (.get_file_resp url true)])
  | .ok _ =>
    match env.download_io with
    | .error e => (.error e, [.net (.get_file_resp url true), .fs (.create_write out_path)])
    | .ok _ => (.ok (), [.net (.get_file_resp url true), .fs (.create_write out_path)])

/-- Embedding of `decrypt_track`: read the encrypted temp file, apply
`decrypt_track_bytes`, write the decrypted temp file. -/
def decrypt_track (env : Env) (enc_path dec_path key : String) :
    Except String Unit × List Eff :=
  match env.enc_read with
  | .error e => (.error e, [.fs (.read_file enc_path)])
  | .ok enc_data =>
    match decrypt_track_bytes key enc_data with
    | .error e => (.error e, [.fs (.read_file enc_path)])
    | .ok _ =>
      match env.dec_write with
      | .error e => (.error e, [.fs (.read_file enc_path), .fs (.write_file dec_path)])
      | .ok _ => (.ok (), [.fs (.read_file enc_path), .fs (.write_file dec_path)])

/-- Embedding of `mux`: ffmpeg is invoked with the decrypted input and the
final destination as its output path; on non-zero exit the captured standard
error is wrapped verbatim. -/
def mux (env : Env) (in_path out_path _ffmpeg_path : String) :
    Except String Unit × List Eff :=
  match env.mux_ok with
  | .error err_output =>
    (.error ("ffmpeg failed: " ++ err_output), [.fs (.mux_output in_path out_path)])
  | .ok _ => (.ok (), [.fs (.mux_output in_path out_path)])

/-- Embedding of `get_lyrics_text`: the signed lyrics-meta request, then the
plain fetch of the returned download URL. -/
def get_lyrics_text (env : Env) (track_id : String) (timed : Bool) :
    Except String String × List Eff :=
  match env.lyrics_meta with
  | .error e => (.error e, [.net (.get_lyrics_meta track_id timed)])
  | .ok download_url =>
    match env.lyrics_body with
    | .error e => (.error e,
        [.net (.get_lyrics_meta track_id timed), .net (.get_file_resp download_url false)])
    | .ok lyrics => (.ok lyrics,
        [.net (.get_lyrics_meta track_id timed), .net (.get_file_resp download_url false)])

/-- Embedding of `write_timed_lyrics`: create and write the `.lrc` sidecar. -/
def write_timed_lyrics (env : Env) (out_path : String) : Except String Unit × List Eff :=
  match env.lrc_write with
  | .error e => (.error e, [.fs (.create_write out_path)])
  | .ok _ => (.ok (), [.fs (.create_write out_path)])

def tag_write_result (env : Env) (track_path : String) : Except String Unit × List Eff :=
  match env.tags_ok with
  | .error e => (.error e, [.fs (.write_tags_file track_path)])
  | .ok _ => (.ok (), [.fs (.write_tags_file track_path)])

/-- Embedding of `write_tags`: dispatch on the codec; all three writers rewrite
the finished file in place; unrecognized codecs do nothing.  The per-field tag
content is modelled by `write_flac_tags`/`write_mp3_tags`/`write_mp4_tags`. -/
def write_tags (env : Env) (track_path codec : String) : Except String Unit × List Eff :=
  match codec with
  | "flac-mp4" => tag_write_result env track_path
  | "mp3-mp4" => tag_write_result env track_path
  | "aac-mp4" => tag_write_result env track_path
  | "he-aac-mp4" => tag_write_result env track_path
  | _ => (.ok (), [])

/-- The `println!` banner at the top of `process_track`. -/
def track_banner (meta : ParsedAlbumMeta) (specs : String) : String :=
  if meta.is_track_only then
    "Track 1 of 1: " ++ meta.title ++ " - " ++ specs
  else
    "Track " ++ Nat.repr meta.track_num ++ " of " ++ Nat.repr meta.track_total
      ++ ": " ++ meta.title ++ " - " ++ specs

/-- Tags stage of `process_track` (shared tail). -/
def process_track_tags (env : Env) (meta : ParsedAlbumMeta) (info : DownloadInfo)
    (track_path : String) (t : List Eff) : TrackResult :=
  match write_tags env track_path info.codec with
  | (.error e, es) => ⟨.error (.msg e), meta, t ++ es⟩
  | (.ok _, es) => ⟨.ok (), meta, t ++ es⟩

/-- Lyrics stage of `process_track`: the fetch is gated only on
`meta.lyrics_avail`; `config.write_lyrics` gates only the `.lrc` sidecar. -/
def process_track_lyrics (env : Env) (track_id : String) (meta : ParsedAlbumMeta)
    (config : Config) (info : DownloadInfo) (track_path_no_ext track_path : String)
    (t : List Eff) : TrackResult :=
  match meta.lyrics_avail with
  | none => process_track_tags env meta info track_path t
  | some lyrics =>
    match get_lyrics_text env track_id lyrics with
    | (.error e, es) => ⟨.error (.msg e), meta, t ++ es⟩
    | (.ok lyrics_text, es) =>
      let t1 := t ++ es
      if lyrics then
        if config.write_lyrics then
          let lyrics_path := append_to_path_buf track_path_no_ext ".lrc"
          let t2 := t1 ++ [Eff.println "Writing timed lyrics file..."]
          match write_timed_lyrics env lyrics_path with
          | (.error e, es2) => ⟨.error (.msg e), meta, t2 ++ es2⟩
          | (.ok _, es2) =>
            process_track_tags env { meta with timed_lyrics := some lyrics_text }
              info track_path (t2 ++ es2)
        else
          process_track_tags env { meta with timed_lyrics := some lyrics_text }
            info track_path t1
      else
        process_track_tags env { meta with untimed_lyrics := some lyrics_text }
          info track_path t1

/-- Download-and-onward stages of `process_track` (after the existence
check): `.incomplete` download, `.incomplete_dec.mp4` decryption, mux directly
into the destination path, removal of both temp files, lyrics, tags. -/
def process_track_body (env : Env) (track_id : String) (meta : ParsedAlbumMeta)
    (config : Config) (info : DownloadInfo) (track_path_no_ext track_path : String)
    (t : List Eff) : TrackResult :=
  let track_path_incomp := append_to_path_buf track_path_no_ext ".incomplete"
  let track_path_incomp_dec := append_to_path_buf track_path_no_ext ".incomplete_dec.mp4"
  match download_track env info.url track_path_incomp with
  | (.error e, es) => ⟨.error (.msg e), meta, t ++ es⟩
  | (.ok _, es) =>
    let t1 := t ++ es ++ [Eff.println "Decrypting..."]
    match decrypt_track env track_path_incomp track_path_incomp_dec info.key with
    | (.error e, es2) => ⟨.error (.msg e), meta, t1 ++ es2⟩
    | (.ok _, es2) =>
      let t2 := t1 ++ es2 ++ [Eff.println "Muxing..."]
      match mux env track_path_incomp_dec track_path config.ffmpeg_path with
      | (.error e, es3) => ⟨.error (.msg e), meta, t2 ++ es3⟩
      | (.ok _, es3) =>
        let t3 := t2 ++ es3
        match env.remove_incomp with
        | .error e => ⟨.error (.msg e), meta, t3⟩
        | .ok _ =>
          let t4 := t3 ++ [Eff.fs (.remove_file track_path_incomp)]
          match env.remove_dec with
          | .error e => ⟨.error (.msg e), meta, t4⟩
          | .ok _ =>
            let t5 := t4 ++ [Eff.fs (.remove_file track_path_incomp_dec)]
            process_track_lyrics env track_id meta config info
              track_path_no_ext track_path t5

/-- Embedding of `process_track`.  `is_windows` is the compile-time
`IS_WINDOWS` constant of `main.rs`. -/
def process_track (is_windows : Bool) (env : Env) (track_id : String)
    (meta : ParsedAlbumMeta) (config : Config) (album_path : String) : TrackResult :=
  match env.file_info with
  | .error e =>
    ⟨.error (.msg e), meta, [Eff.net (.get_file_info track_id config.format_str)]⟩
  | .ok info =>
    let t0 : List Eff := [Eff.net (.get_file_info track_id config.format_str)]
    match parse_specs info.codec info.bitrate with
    | none =>
      ⟨.error (.msg ("the api returned an unknown codec: " ++ info.codec)), meta, t0⟩
    | some sp =>
      let t1 := t0 ++ [Eff.println (track_banner meta sp.1)]
      let padding := format_track_number meta.track_num meta.track_total
      let san_track_fname := parse_track_template config.track_template meta padding
      let track_path_no_ext := path_join album_path san_track_fname
      let track_path := append_to_path_buf track_path_no_ext sp.2
      match file_exists env.metadata_result with
      | .ok true => ⟨.ok (), meta, t1 ++ [Eff.println "Track already exists locally."]⟩
      | .ok false =>
        process_track_body env track_id meta config info track_path_no_ext track_path t1
      | .error err =>
        if is_windows ∧ err.raw_os = some 206 then
          process_track_body env track_id meta config info
            (path_join album_path padding)
            (append_to_path_buf (path_join album_path padding) sp.2)
            (t1 ++ [Eff.println
              "Track exceeds max path length; will be renamed like <track_num>.<ext> instead."])
        else ⟨.error (.io_error err), meta, t1⟩

/-! ## `main.rs`: the per-album track loop -/

/-- Embedding of `parse_artists` (an `Artist` reduced to its `name`). -/
def parse_artists (artists : List String) : String :=
  String.intercalate ", " artists

/-- Embedding of `parse_title`. -/
def parse_title (title : String) (version : Option String) : String :=
  title ++ (match version with
    | none => ""
    | some v => " (" ++ v ++ ")")

/-- Embedding of `api::structs::Volume` (one album track). -/
structure Volume where
  artists : List String
  id : String
  title : String
  available : Bool
  lyrics_info : Option LyricsInfo
  version : Option String
deriving DecidableEq, Repr

/-- Embedding of `parse_track_meta`: updates the carried album meta with the
track's artist, title, number, the resolved lyrics tri-state (only when the
track carries a `lyrics_info`), and the track-only flag. -/
def parse_track_meta (meta : ParsedAlbumMeta) (track_meta : Volume) (track_num : Nat)
    (is_track_only : Bool) : ParsedAlbumMeta :=
  { meta with
    artist := parse_artists track_meta.artists,
    title := parse_title track_meta.title track_meta.version,
    track_num := track_num,
    lyrics_avail := match track_meta.lyrics_info with
      | some lyrics => lyrics.check_availibility
      | none => meta.lyrics_avail,
    is_track_only := is_track_only }

inductive TrackOutcome where
  /-- The track is unavailable; the loop prints and continues. -/
  | unavailable
  /-- `process_track` failed; the loop prints "Track failed." and continues. -/
  | failed (e : TrackErr)
  | done
deriving DecidableEq, Repr

/-- The inner loop of `process_album` over one volume: the enumerate counter
starts at 1 per volume and advances for unavailable tracks too; per-track
failures are printed and the loop continues; the mutated album meta threads
through iterations.  `env_of` supplies the effect environment of each track. -/
def process_volume (is_windows : Bool) (env_of : String → Env) (config : Config)
    (album_path : String) (is_track_only : Bool) :
    ParsedAlbumMeta → Nat → List Volume → ParsedAlbumMeta × List TrackOutcome
  | meta, _, [] => (meta, [])
  | meta, track_num, track :: rest =>
    if track.available then
      let meta2 := parse_track_meta meta track track_num is_track_only
      let r := process_track is_windows (env_of track.id) track.id meta2 config album_path
      let next := process_volume is_windows env_of config album_path is_track_only
        r.meta (track_num + 1) rest
      (next.1, (match r.result with
        | .ok _ => TrackOutcome.done
        | .error e => TrackOutcome.failed e) :: next.2)
    else
      let next := process_volume is_windows env_of config album_path is_track_only
        meta (track_num + 1) rest
      (next.1, TrackOutcome.unavailable :: next.2)

/-- The volume loop of `process_album`. -/
def process_album_tracks (is_windows : Bool) (env_of : String → Env) (config : Config)
    (album_path : String) (is_track_only : Bool) :
    ParsedAlbumMeta → List (List Volume) → ParsedAlbumMeta × List TrackOutcome
  | meta, [] => (meta, [])
  | meta, volume :: rest =>
    let done := process_volume is_windows env_of config album_path is_track_only
      meta 1 volume
    let next := process_album_tracks is_windows env_of config album_path is_track_only
      done.1 rest
    (next.1, done.2 ++ next.2)

/-! ## Shared trace predicates and concrete fixtures -/

def is_net_eff : Eff → Bool
  | .net _ => true
  | _ => false

def is_fs_eff : Eff → Bool
  | .fs _ => true
  | _ => false

def is_rename_eff : Eff → Bool
  | .fs (.rename_file _ _) => true
  | _ => false

/-- The base path (no extension) the planner computes for a track. -/
def planned_track_path_no_ext (config : Config) (meta : ParsedAlbumMeta)
    (album_path : String) : String :=
  path_join album_path (parse_track_template config.track_template meta
    (format_track_number meta.track_num meta.track_total))

def meta0 : ParsedAlbumMeta :=
  ⟨"A", "AA", "Ar", [], none, none, false, "L", "T", none, none, 1, 2, none⟩

def cfg0 : Config := ⟨"lossless", "x", false, "ffmpeg"⟩

def info0 : DownloadInfo :=
  ⟨"00000000000000000000000000000000", "http://media", 320, "flac-mp4"⟩

def happy_env : Env :=
  ⟨.ok info0, .ok false, .ok (), .ok (), .ok [], .ok (), .ok (), .ok (), .ok (),
   .ok "http://lyr", .ok "LYRICS", .ok (), .ok ()⟩

def exists_env : Env := { happy_env with metadata_result := .ok true }

/-! ## Pipeline lemmas -/

theorem write_tags_cases (env : Env) (p codec : String) :
    write_tags env p codec = tag_write_result env p ∨ write_tags env p codec = (.ok (), []) := by
  unfold write_tags
  repeat' split
  all_goals first
  | exact Or.inl rfl
  | exact Or.inr rfl

theorem write_tags_no_rename (env : Env) (p codec : String) :
    ((write_tags env p codec).2.filter is_rename_eff) = [] := by
  rcases write_tags_cases env p codec with h | h <;> rw [h]
  · rw [tag_write_result]
    cases env.tags_ok <;> simp [is_rename_eff]
  · rfl

theorem process_track_tags_ok (env : Env) (meta : ParsedAlbumMeta) (info : DownloadInfo)
    (p : String) (t : List Eff) (htags : env.tags_ok = .ok ()) :
    process_track_tags env meta info p t
      = ⟨.ok (), meta, t ++ (write_tags env p info.codec).2⟩ := by
  rcases write_tags_cases env p info.codec with h | h <;>
    rw [process_track_tags, h] <;> simp [tag_write_result, htags]

/-- Under a successful file-info response, existence check (absent), download,
decryption, mux and temp-file removal, `process_track` reaches the lyrics
stage with the explicit event prefix below: the media lands in
`<base>.incomplete`, is decrypted into `<base>.incomplete_dec.mp4`, ffmpeg
muxes directly into the destination path, and both temp files are then
removed. -/
theorem process_track_happy_prefix (is_windows : Bool) (env : Env) (track_id : String)
    (meta : ParsedAlbumMeta) (config : Config) (album_path : String) (info : DownloadInfo)
    (sp : String × String) (enc_data dec_data : List Nat)
    (hfi : env.file_info = .ok info)
    (hsp : parse_specs info.codec info.bitrate = some sp)
    (hex : file_exists env.metadata_result = .ok false)
    (hdl1 : env.download_resp = .ok ()) (hdl2 : env.download_io = .ok ())
    (hread : env.enc_read = .ok enc_data)
    (hdec : decrypt_track_bytes info.key enc_data = .ok dec_data)
    (hwrite : env.dec_write = .ok ()) (hmux : env.mux_ok = .ok ())
    (hr1 : env.remove_incomp = .ok ()) (hr2 : env.remove_dec = .ok ()) :
    process_track is_windows env track_id meta config album_path
      = process_track_lyrics env track_id meta config info
          (planned_track_path_no_ext config meta album_path)
          (planned_track_path_no_ext config meta album_path ++ sp.2)
          [Eff.net (.get_file_info track_id config.format_str),
           Eff.println (track_banner meta sp.1),
           Eff.net (.get_file_resp info.url true),
           Eff.fs (.create_write (planned_track_path_no_ext config meta album_path
              ++ ".incomplete")),
           Eff.println "Decrypting...",
           Eff.fs (.read_file (planned_track_path_no_ext config meta album_path
              ++ ".incomplete")),
           Eff.fs (.write_file (planned_track_path_no_ext config meta album_path
              ++ ".incomplete_dec.mp4")),
           Eff.println "Muxing...",
           Eff.fs (.mux_output (planned_track_path_no_ext config meta album_path
              ++ ".incomplete_dec.mp4")
             (planned_track_path_no_ext config meta album_path ++ sp.2)),
           Eff.fs (.remove_file (planned_track_path_no_ext config meta album_path
              ++ ".incomplete")),
           Eff.fs (.remove_file (planned_track_path_no_ext config meta album_path
              ++ ".incomplete_dec.mp4"))] := by
  simp only [process_track, hfi, hsp, hex, process_track_body, download_track, hdl1, hdl2,
    decrypt_track, hread, hdec, hwrite, mux, hmux, hr1, hr2, append_to_path_buf,
    planned_track_path_no_ext, List.append_assoc, List.cons_append, List.nil_append]

/-! ## Claim C1 -/

/-- C1 (amended): on the successful pipeline path the downloaded media is
written to the deterministic temp sibling `<base>.incomplete` and decrypted
into `<base>.incomplete_dec.mp4` (not `.incomplete_dec`); the final container
is produced by the external muxer writing directly to the destination path —
there is no atomic rename anywhere in the pipeline — and both temp files are
removed only after the mux has produced the destination file, after which tags
are written to the destination in place. -/
theorem process_track_temp_file_trace (is_windows : Bool) (env : Env) (track_id : String)
    (meta : ParsedAlbumMeta) (config : Config) (album_path : String) (info : DownloadInfo)
    (sp : String × String) (enc_data dec_data : List Nat)
    (hfi : env.file_info = .ok info)
    (hsp : parse_specs info.codec info.bitrate = some sp)
    (hex : file_exists env.metadata_result = .ok false)
    (hdl1 : env.download_resp = .ok ()) (hdl2 : env.download_io = .ok ())
    (hread : env.enc_read = .ok enc_data)
    (hdec : decrypt_track_bytes info.key enc_data = .ok dec_data)
    (hwrite : env.dec_write = .ok ()) (hmux : env.mux_ok = .ok ())
    (hr1 : env.remove_incomp = .ok ()) (hr2 : env.remove_dec = .ok ())
    (hly : meta.lyrics_avail = none) (htags : env.tags_ok = .ok ()) :
    process_track is_windows env track_id meta config album_path
      = ⟨.ok (), meta,
         [Eff.net (.get_file_info track_id config.format_str),
          Eff.println (track_banner meta sp.1),
          Eff.net (.get_file_resp info.url true),
          Eff.fs (.create_write (planned_track_path_no_ext config meta album_path
             ++ ".incomplete")),
          Eff.println "Decrypting...",
          Eff.fs (.read_file (planned_track_path_no_ext config meta album_path
             ++ ".incomplete")),
          Eff.fs (.write_file (planned_track_path_no_ext config meta album_path
             ++ ".incomplete_dec.mp4")),
          Eff.println "Muxing...",
          Eff.fs (.mux_output (planned_track_path_no_ext config meta album_path
             ++ ".incomplete_dec.mp4")
            (planned_track_path_no_ext config meta album_path ++ sp.2)),
          Eff.fs (.remove_file (planned_track_path_no_ext config meta album_path
             ++ ".incomplete")),
          Eff.fs (.remove_file (planned_track_path_no_ext config meta album_path
             ++ ".incomplete_dec.mp4"))]
         ++ (write_tags env (planned_track_path_no_ext config meta album_path ++ sp.2)
              info.codec).2⟩
    ∧ ((process_track is_windows env track_id meta config album_path).trace.filter
         is_rename_eff) = [] := by
  have hpre := process_track_happy_prefix is_windows env track_id meta config album_path
    info sp enc_data dec_data hfi hsp hex hdl1 hdl2 hread hdec hwrite hmux hr1 hr2
  constructor
  · rw [hpre]
    simp only [process_track_lyrics, hly]
    exact process_track_tags_ok env meta info _ _ htags
  · rw [hpre]
    simp only [process_track_lyrics, hly]
    rw [process_track_tags_ok env meta info _ _ htags]
    simp only [List.filter_append, write_tags_no_rename]
    simp [is_rename_eff]

/-- C1 counterexample to the claim as stated: in a concrete successful run the
destination `out/x.flac` is produced directly by the external muxer — the
trace contains a `mux_output` event targeting the destination and no rename
event at all — and the decryption temp file is `out/x.incomplete_dec.mp4`,
not `out/x.incomplete_dec`; the destination is not populated by an atomic
rename. -/
theorem no_rename_in_concrete_trace :
    (process_track false happy_env "1" meta0 cfg0 "out").trace
      = [Eff.net (.get_file_info "1" "lossless"),
         Eff.println "Track 1 of 2: T - FLAC",
         Eff.net (.get_file_resp "http://media" true),
         Eff.fs (.create_write "out/x.incomplete"),
         Eff.println "Decrypting...",
         Eff.fs (.read_file "out/x.incomplete"),
         Eff.fs (.write_file "out/x.incomplete_dec.mp4"),
         Eff.println "Muxing...",
         Eff.fs (.mux_output "out/x.incomplete_dec.mp4" "out/x.flac"),
         Eff.fs (.remove_file "out/x.incomplete"),
         Eff.fs (.remove_file "out/x.incomplete_dec.mp4"),
         Eff.fs (.write_tags_file "out/x.flac")]
    ∧ (process_track false happy_env "1" meta0 cfg0 "out").trace.filter is_rename_eff
        = [] := by
  constructor <;> decide

/-! ## Claim C2 -/

/-- C2 (amended): when the computed final path already exists, `process_track`
prints that the track exists, returns success, and performs no filesystem work
and no media download — but it performs exactly one network call, the signed
file-info request, which precedes the existence check because the file
extension depends on its response; re-invocation with the same environment is
the same pure function application, hence the same outcome. -/
theorem process_track_already_exists (is_windows : Bool) (env : Env) (track_id : String)
    (meta : ParsedAlbumMeta) (config : Config) (album_path : String) (info : DownloadInfo)
    (sp : String × String)
    (hfi : env.file_info = .ok info)
    (hsp : parse_specs info.codec info.bitrate = some sp)
    (hex : file_exists env.metadata_result = .ok true) :
    (process_track is_windows env track_id meta config album_path).result = .ok ()
    ∧ (process_track is_windows env track_id meta config album_path).trace
        = [Eff.net (.get_file_info track_id config.format_str),
           Eff.println (track_banner meta sp.1),
           Eff.println "Track already exists locally."]
    ∧ (process_track is_windows env track_id meta config album_path).trace.filter
        is_fs_eff = []
    ∧ (process_track is_windows env track_id meta config album_path).trace.filter
        is_net_eff = [Eff.net (.get_file_info track_id config.format_str)] := by
  have heq : process_track is_windows env track_id meta config album_path
      = ⟨.ok (), meta,
         [Eff.net (.get_file_info track_id config.format_str),
          Eff.println (track_banner meta sp.1),
          Eff.println "Track already exists locally."]⟩ := by
    simp only [process_track, hfi, hsp, hex, List.cons_append, List.nil_append]
  rw [heq]
  refine ⟨rfl, rfl, ?_, ?_⟩ <;> simp [is_fs_eff, is_net_eff]

/-- C2 counterexample to the claim as stated: with the destination already
present, the second invocation still performs one network call — the signed
file-info request — so "zero network calls" is false. -/
theorem second_invocation_network_call :
    (process_track false exists_env "1" meta0 cfg0 "out").result = .ok ()
    ∧ (process_track false exists_env "1" meta0 cfg0 "out").trace.filter is_net_eff
        = [Eff.net (.get_file_info "1" "lossless")] := by
  constructor <;> decide

theorem process_track_already_exists_witness :
    (process_track false exists_env "1" meta0 cfg0 "out").result = .ok ()
    ∧ (process_track false exists_env "1" meta0 cfg0 "out").trace.filter is_fs_eff = [] :=
  ⟨(process_track_already_exists false exists_env "1" meta0 cfg0 "out" info0
      ("FLAC", ".flac") rfl rfl rfl).1,
   (process_track_already_exists false exists_env "1" meta0 cfg0 "out" info0
      ("FLAC", ".flac") rfl rfl rfl).2.2.1⟩

theorem process_track_temp_file_trace_witness :
    (process_track false happy_env "1" meta0 cfg0 "out").trace.filter is_rename_eff = [] :=
  (process_track_temp_file_trace false happy_env "1" meta0 cfg0 "out" info0
    ("FLAC", ".flac") []
    (apply_keystream [0, 0, 0, 0, 0, 0, 0, 0, 0, 0, 0, 0, 0, 0, 0, 0] [])
    rfl rfl rfl rfl rfl rfl rfl rfl rfl rfl rfl rfl rfl).2

/-! ## Claim C6 -/

theorem string_append_right_inj (P a b : String) : P ++ a = P ++ b ↔ a = b := by
  constructor
  · intro h
    have hd : P.data ++ a.data = P.data ++ b.data := by
      rw [← String.data_append, ← String.data_append, h]
    have hab : a.data = b.data := List.append_cancel_left hd
    cases a
    cases b
    simp only at hab
    rw [hab]
  · intro h
    rw [h]

theorem write_tags_filter_lrc (env : Env) (p codec P : String) :
    ((write_tags env p codec).2.filter
      (fun e => e == Eff.fs (.create_write (P ++ ".lrc")))) = [] := by
  rcases write_tags_cases env p codec with h | h <;> rw [h]
  · rw [tag_write_result]
    cases env.tags_ok <;> simp
  · rfl

theorem write_tags_no_net (env : Env) (p codec : String) :
    ((write_tags env p codec).2.filter is_net_eff) = [] := by
  rcases write_tags_cases env p codec with h | h <;> rw [h]
  · rw [tag_write_result]
    cases env.tags_ok <;> simp [is_net_eff]
  · rfl

/-- C6 (amended): the lyrics fetch is gated only on the track's reported
availability, not on configuration: with `lyrics_avail = none` no lyrics
request occurs (the only network calls are the file-info request and the media
fetch), while whenever `lyrics_avail` is `some b` the lyrics-meta request and
the lyrics download occur even when `config.write_lyrics` is disabled;
`config.write_lyrics` gates only the timed-lyrics `.lrc` sidecar (same base
name), and the fetched text is embedded into the tag metadata regardless. -/
theorem lyrics_fetch_gating (is_windows : Bool) (env : Env) (track_id : String)
    (meta : ParsedAlbumMeta) (config : Config) (album_path : String) (info : DownloadInfo)
    (sp : String × String) (enc_data dec_data : List Nat) (url text : String)
    (hfi : env.file_info = .ok info)
    (hsp : parse_specs info.codec info.bitrate = some sp)
    (hex : file_exists env.metadata_result = .ok false)
    (hdl1 : env.download_resp = .ok ()) (hdl2 : env.download_io = .ok ())
    (hread : env.enc_read = .ok enc_data)
    (hdec : decrypt_track_bytes info.key enc_data = .ok dec_data)
    (hwrite : env.dec_write = .ok ()) (hmux : env.mux_ok = .ok ())
    (hr1 : env.remove_incomp = .ok ()) (hr2 : env.remove_dec = .ok ())
    (hlm : env.lyrics_meta = .ok url) (hlb : env.lyrics_body = .ok text)
    (hlrc : env.lrc_write = .ok ()) (htags : env.tags_ok = .ok ()) :
    (meta.lyrics_avail = none →
      (process_track is_windows env track_id meta config album_path).trace.filter
          is_net_eff
        = [Eff.net (.get_file_info track_id config.format_str),
           Eff.net (.get_file_resp info.url true)])
    ∧ (∀ b, meta.lyrics_avail = some b →
        (process_track is_windows env track_id meta config album_path).trace.filter
            is_net_eff
          = [Eff.net (.get_file_info track_id config.format_str),
             Eff.net (.get_file_resp info.url true),
             Eff.net (.get_lyrics_meta track_id b),
             Eff.net (.get_file_resp url false)]
        ∧ (process_track is_windows env track_id meta config album_path).trace.filter
            (fun e => e == Eff.fs (.create_write
              (planned_track_path_no_ext config meta album_path ++ ".lrc")))
          = (if b && config.write_lyrics then
              [Eff.fs (.create_write
                (planned_track_path_no_ext config meta album_path ++ ".lrc"))]
             else [])
        ∧ (process_track is_windows env track_id meta config album_path).meta
          = (if b then { meta with timed_lyrics := some text }
             else { meta with untimed_lyrics := some text })) := by
  have hpre := process_track_happy_prefix is_windows env track_id meta config album_path
    info sp enc_data dec_data hfi hsp hex hdl1 hdl2 hread hdec hwrite hmux hr1 hr2
  have hne : planned_track_path_no_ext config meta album_path ++ ".incomplete"
      ≠ planned_track_path_no_ext config meta album_path ++ ".lrc" := by
    rw [Ne, string_append_right_inj]
    decide
  constructor
  · intro hnone
    rw [hpre]
    simp only [process_track_lyrics, hnone]
    rw [process_track_tags_ok env meta info _ _ htags]
    simp only [List.filter_append, write_tags_no_net]
    simp [is_net_eff]
  · intro b hb
    rw [hpre]
    simp only [process_track_lyrics, hb, get_lyrics_text, hlm, hlb]
    cases b with
    | true =>
      cases hw : config.write_lyrics with
      | true =>
        simp only [if_true, Bool.true_and, hw, write_timed_lyrics, hlrc]
        rw [process_track_tags_ok env _ info _ _ htags]
        refine ⟨?_, ?_, ?_⟩
        · simp only [List.filter_append, write_tags_no_net]
          simp [is_net_eff]
        · simp only [List.filter_append]
          rw [write_tags_filter_lrc env _ _
            (planned_track_path_no_ext config meta album_path)]
          simp [append_to_path_buf, string_append_right_inj, hne]
          try exact hne
        · rfl
      | false =>
        simp only [hw, Bool.and_false, if_false, Bool.false_eq_true, if_true]
        rw [process_track_tags_ok env _ info _ _ htags]
        refine ⟨?_, ?_, ?_⟩
        · simp only [List.filter_append, write_tags_no_net]
          simp [is_net_eff]
        · simp only [List.filter_append]
          rw [write_tags_filter_lrc env _ _
            (planned_track_path_no_ext config meta album_path)]
          simp [append_to_path_buf, string_append_right_inj, hne]
          try exact hne
        · rfl
    | false =>
      simp only [Bool.false_and, if_false, Bool.false_eq_true]
      rw [process_track_tags_ok env _ info _ _ htags]
      refine ⟨?_, ?_, ?_⟩
      · simp only [List.filter_append, write_tags_no_net]
        simp [is_net_eff]
      · simp only [List.filter_append]
        rw [write_tags_filter_lrc env _ _
          (planned_track_path_no_ext config meta album_path)]
        simp [append_to_path_buf, string_append_right_inj, hne]
        try exact hne
      · rfl

def metaL : ParsedAlbumMeta := { meta0 with lyrics_avail := some true }

/-- C6 counterexample to the claim as stated: with `write_lyrics` disabled in
the configuration but timed lyrics reported available, the lyrics-meta request
is still performed (the fetch is not gated on the configuration); only the
`.lrc` sidecar is suppressed. -/
theorem lyrics_fetched_despite_config :
    cfg0.write_lyrics = false
    ∧ Eff.net (.get_lyrics_meta "1" true)
        ∈ (process_track false happy_env "1" metaL cfg0 "out").trace
    ∧ Eff.fs (.create_write "out/x.lrc")
        ∉ (process_track false happy_env "1" metaL cfg0 "out").trace := by
  refine ⟨rfl, ?_, ?_⟩ <;> decide

theorem lyrics_fetch_gating_witness :
    (process_track false happy_env "1" metaL cfg0 "out").trace.filter is_net_eff
      = [Eff.net (.get_file_info "1" "lossless"),
         Eff.net (.get_file_resp "http://media" true),
         Eff.net (.get_lyrics_meta "1" true),
         Eff.net (.get_file_resp "http://lyr" false)] :=
  ((lyrics_fetch_gating false happy_env "1" metaL cfg0 "out" info0 ("FLAC", ".flac")
      [] (apply_keystream [0, 0, 0, 0, 0, 0, 0, 0, 0, 0, 0, 0, 0, 0, 0, 0] [])
      "http://lyr" "LYRICS"
      rfl rfl rfl rfl rfl rfl rfl rfl rfl rfl rfl rfl rfl rfl rfl).2 true rfl).1

/-! ## Claim C7 -/

/-- C7 (amended): the existence check's error handling: a `NotFound` from
`fs::metadata` is not an error (it means "file absent": processing proceeds at
the normal templated path); on a Windows build an error with raw OS code 206
(path too long) — and only that case — is recovered by retrying with the
zero-padded track number as the filename stem in the same directory, emitting
a notice; on non-Windows builds, and for every other error, the error
propagates as the per-track failure. -/
theorem path_length_fallback (is_windows : Bool) (env : Env) (track_id : String)
    (meta : ParsedAlbumMeta) (config : Config) (album_path : String) (info : DownloadInfo)
    (sp : String × String) (err : IoErr)
    (hfi : env.file_info = .ok info)
    (hsp : parse_specs info.codec info.bitrate = some sp)
    (herr : env.metadata_result = .error err) :
    (err.is_not_found = true →
      process_track is_windows env track_id meta config album_path
        = process_track_body env track_id meta config info
            (planned_track_path_no_ext config meta album_path)
            (planned_track_path_no_ext config meta album_path ++ sp.2)
            [Eff.net (.get_file_info track_id config.format_str),
             Eff.println (track_banner meta sp.1)])
    ∧ (err.is_not_found = false → is_windows = true → err.raw_os = some 206 →
      process_track is_windows env track_id meta config album_path
        = process_track_body env track_id meta config info
            (path_join album_path (format_track_number meta.track_num meta.track_total))
            (path_join album_path (format_track_number meta.track_num meta.track_total)
              ++ sp.2)
            [Eff.net (.get_file_info track_id config.format_str),
             Eff.println (track_banner meta sp.1),
             Eff.println
               "Track exceeds max path length; will be renamed like <track_num>.<ext> instead."])
    ∧ (err.is_not_found = false → ¬(is_windows = true ∧ err.raw_os = some 206) →
      (process_track is_windows env track_id meta config album_path).result
        = .error (.io_error err)
      ∧ (process_track is_windows env track_id meta config album_path).trace
        = [Eff.net (.get_file_info track_id config.format_str),
           Eff.println (track_banner meta sp.1)]) := by
  refine ⟨?_, ?_, ?_⟩
  · intro hnf
    simp only [process_track, hfi, hsp, herr, file_exists, hnf, if_true,
      planned_track_path_no_ext, append_to_path_buf, List.cons_append, List.nil_append]
  · intro hnf hw h206
    simp only [process_track, hfi, hsp, herr, file_exists, hnf, Bool.false_eq_true,
      if_false, hw, h206, and_self, if_true, append_to_path_buf, List.cons_append,
      List.nil_append]
  · intro hnf hnot
    have heq : process_track is_windows env track_id meta config album_path
        = ⟨.error (.io_error err), meta,
           [Eff.net (.get_file_info track_id config.format_str),
            Eff.println (track_banner meta sp.1)]⟩ := by
      simp only [process_track, hfi, hsp, herr, file_exists, hnf, Bool.false_eq_true,
        if_false, List.cons_append, List.nil_append]
      rw [if_neg hnot]
    rw [heq]
    exact ⟨rfl, rfl⟩

def name_too_long_env : Env :=
  { happy_env with metadata_result := .error ⟨false, some 36⟩ }

/-- C7 counterexample to the claim as stated: on a non-Windows host
(`IS_WINDOWS = false`) a name-too-long error from the existence check (Linux
`ENAMETOOLONG`, raw OS error 36) is not recovered: no fallback, no notice, the
track fails with the propagated I/O error. -/
theorem no_fallback_on_non_windows :
    (process_track false name_too_long_env "1" meta0 cfg0 "out").result
      = .error (.io_error ⟨false, some 36⟩)
    ∧ Eff.println
        "Track exceeds max path length; will be renamed like <track_num>.<ext> instead."
        ∉ (process_track false name_too_long_env "1" meta0 cfg0 "out").trace := by
  constructor <;> decide

def env206 : Env :=
  { happy_env with metadata_result := .error ⟨false, some 206⟩ }

theorem path_length_fallback_witness :
    process_track true env206 "1" meta0 cfg0 "out"
      = process_track_body env206 "1" meta0 cfg0 info0
          (path_join "out" (format_track_number meta0.track_num meta0.track_total))
          (path_join "out" (format_track_number meta0.track_num meta0.track_total)
            ++ ".flac")
          [Eff.net (.get_file_info "1" "lossless"),
           Eff.println (track_banner meta0 "FLAC"),
           Eff.println
             "Track exceeds max path length; will be renamed like <track_num>.<ext> instead."] :=
  (path_length_fallback true env206 "1" meta0 cfg0 "out" info0 ("FLAC", ".flac")
    ⟨false, some 206⟩ rfl rfl rfl).2.1 rfl rfl rfl

/-! ## Claim C8 -/

theorem process_track_unknown_codec (is_windows : Bool) (env : Env) (track_id : String)
    (meta : ParsedAlbumMeta) (config : Config) (album_path : String) (info : DownloadInfo)
    (hfi : env.file_info = .ok info)
    (hcodec : parse_specs info.codec info.bitrate = none) :
    (process_track is_windows env track_id meta config album_path).result
      = .error (.msg ("the api returned an unknown codec: " ++ info.codec)) := by
  simp only [process_track, hfi, hcodec]

theorem process_volume_length (is_windows : Bool) (env_of : String → Env) (config : Config)
    (album_path : String) (is_track_only : Bool) (ts : List Volume) :
    ∀ (meta : ParsedAlbumMeta) (n : Nat),
      (process_volume is_windows env_of config album_path is_track_only meta n ts).2.length
        = ts.length := by
  induction ts with
  | nil =>
    intro meta n
    rfl
  | cons t rest ih =>
    intro meta n
    rw [process_volume]
    by_cases h : t.available = true
    · simp only [h, if_true, List.length_cons]
      rw [ih]
    · simp only [h, Bool.false_eq_true, if_false, List.length_cons]
      rw [ih]

theorem process_volume_get_unknown (is_windows : Bool) (env_of : String → Env)
    (config : Config) (album_path : String) (is_track_only : Bool)
    (t : Volume) (post : List Volume) (info : DownloadInfo)
    (ht : t.available = true)
    (hfi : (env_of t.id).file_info = .ok info)
    (hcodec : parse_specs info.codec info.bitrate = none) :
    ∀ (pre : List Volume) (meta : ParsedAlbumMeta) (n : Nat),
      (process_volume is_windows env_of config album_path is_track_only meta n
        (pre ++ t :: post)).2.get? pre.length
        = some (TrackOutcome.failed
            (.msg ("the api returned an unknown codec: " ++ info.codec))) := by
  intro pre
  induction pre with
  | nil =>
    intro meta n
    rw [List.nil_append, process_volume]
    simp only [ht, if_true, List.length_nil]
    rw [process_track_unknown_codec is_windows (env_of t.id) t.id
      (parse_track_meta meta t n is_track_only) config album_path info hfi hcodec]
    rfl
  | cons p pre ih =>
    intro meta n
    rw [List.cons_append, process_volume]
    by_cases hp : p.available = true
    · simp only [hp, if_true, List.length_cons, List.get?_cons_succ]
      exact ih _ _
    · simp only [hp, Bool.false_eq_true, if_false, List.length_cons, List.get?_cons_succ]
      exact ih _ _

/-- C8: a track whose file-info reports a codec the specs resolver does not
recognize (e.g. "opus") fails with the "unknown codec" error, and the
enclosing album loop still processes every sibling: the loop yields one
outcome per track of the volume (it never aborts early), and the outcome at
the failing track's position is exactly the unknown-codec per-track error. -/
theorem unknown_codec_aborts_only_track (is_windows : Bool) (env_of : String → Env)
    (config : Config) (album_path : String) (is_track_only : Bool)
    (meta : ParsedAlbumMeta) (pre post : List Volume) (t : Volume) (info : DownloadInfo)
    (ht : t.available = true)
    (hfi : (env_of t.id).file_info = .ok info)
    (hcodec : parse_specs info.codec info.bitrate = none) :
    ((process_album_tracks is_windows env_of config album_path is_track_only meta
        [pre ++ t :: post]).2.length = pre.length + 1 + post.length)
    ∧ ((process_album_tracks is_windows env_of config album_path is_track_only meta
        [pre ++ t :: post]).2.get? pre.length
        = some (TrackOutcome.failed
            (.msg ("the api returned an unknown codec: " ++ info.codec)))) := by
  have hunf : (process_album_tracks is_windows env_of config album_path is_track_only meta
      [pre ++ t :: post]).2
      = (process_volume is_windows env_of config album_path is_track_only meta 1
          (pre ++ t :: post)).2 := by
    rw [process_album_tracks, process_album_tracks]
    simp
  rw [hunf]
  constructor
  · rw [process_volume_length]
    simp
    omega
  · exact process_volume_get_unknown is_windows env_of config album_path is_track_only
      t post info ht hfi hcodec pre meta 1

def opus_info : DownloadInfo := ⟨"00", "http://media", 96, "opus"⟩

def opus_env : Env := { happy_env with file_info := .ok opus_info }

def env_of8 : String → Env := fun id => if id = "1" then opus_env else happy_env

def vol1 : Volume := ⟨["X"], "10", "S1", true, none, none⟩

def volT : Volume := ⟨["Y"], "1", "S2", true, none, none⟩

def vol2 : Volume := ⟨["Z"], "12", "S3", true, none, none⟩

theorem unknown_codec_aborts_only_track_witness :
    ((process_album_tracks false env_of8 cfg0 "out" false meta0
        [[vol1, volT, vol2]]).2.length = 3)
    ∧ ((process_album_tracks false env_of8 cfg0 "out" false meta0
        [[vol1, volT, vol2]]).2.get? 1
        = some (TrackOutcome.failed
            (.msg "the api returned an unknown codec: opus"))) :=
  ⟨(unknown_codec_aborts_only_track false env_of8 cfg0 "out" false meta0
      [vol1] [vol2] volT opus_info rfl rfl rfl).1,
   (unknown_codec_aborts_only_track false env_of8 cfg0 "out" false meta0
      [vol1] [vol2] volT opus_info rfl rfl rfl).2⟩

end YandexDL
